import Mathlib

/-!
Verification of the BiteCalc food-analyzer core
(`src/components/food-analyzer.tsx`).

The embedding models JavaScript numbers as exact rationals together with an
explicit NaN value.  Rationals are given by a small kernel-computable
fraction type `JQ` (numerator/denominator in lowest terms, built only
through `JQ.make`), so that every definition evaluates under `decide`.
Floating-point rounding of JavaScript doubles is not modelled; all decimal
literals appearing in the source are exact in this embedding.

String operations (`split`, `trim`, `includes`, `toLowerCase`,
`parseInt`, `parseFloat`) are modelled after their JavaScript semantics on
the character list of the string.  `toLowerCase` is modelled on ASCII
letters only, and `parseInt` is modelled for base-10 inputs (the `0x`
radix prefix of JavaScript's `parseInt` is not modelled; no caller in the
source relies on it).
-/

/-- Exact rational numbers with a kernel-computable carrier.  Values built
through `JQ.make` are normalized (lowest terms, positive denominator). -/
structure JQ where
  num : ℤ
  den : ℤ
deriving DecidableEq

/-- Normalizing constructor: `JQ.make n d` represents `n / d` in lowest
terms; a zero denominator is mapped to `0` (never produced by the model). -/
def JQ.make (n d : ℤ) : JQ :=
  if d = 0 then ⟨0, 1⟩
  else
    let g : ℤ := (n.natAbs.gcd d.natAbs : ℤ)
    let s : ℤ := if d < 0 then -1 else 1
    ⟨s * n / g, s * d / g⟩

def JQ.ofInt (n : ℤ) : JQ := ⟨n, 1⟩

def JQ.add (a b : JQ) : JQ := JQ.make (a.num * b.den + b.num * a.den) (a.den * b.den)

def JQ.sub (a b : JQ) : JQ := JQ.make (a.num * b.den - b.num * a.den) (a.den * b.den)

def JQ.mul (a b : JQ) : JQ := JQ.make (a.num * b.num) (a.den * b.den)

/-- Strict order on normalized fractions (positive denominators). -/
def JQ.blt (a b : JQ) : Bool := a.num * b.den < b.num * a.den

/-- Floor of a normalized fraction. -/
def JQ.floor (a : JQ) : ℤ := a.num.fdiv a.den

instance : Add JQ := ⟨JQ.add⟩

instance : Sub JQ := ⟨JQ.sub⟩

instance : Mul JQ := ⟨JQ.mul⟩

instance (n : ℕ) : OfNat JQ n := ⟨JQ.ofInt n⟩

instance : OfScientific JQ :=
  ⟨fun m b e => if b then JQ.make (m : ℤ) ((10 : ℤ) ^ e) else JQ.ofInt ((m : ℤ) * (10 : ℤ) ^ e)⟩

/-- JavaScript `Math.round`: round half toward positive infinity. -/
def jsRound (a : JQ) : ℤ := (a + JQ.make 1 2).floor

/-- A JavaScript number: either NaN or a finite value modelled exactly. -/
inductive JsNum where
  | nan : JsNum
  | num : JQ → JsNum
deriving DecidableEq

/-- JavaScript `x || d` on a number `x` (with `d` a number): `x` is falsy
exactly when it is `NaN` or `0`. -/
def jsOrJ (x : JsNum) (d : JQ) : JQ :=
  match x with
  | JsNum.nan => d
  | JsNum.num q => if q.num = 0 then d else q

/-- JavaScript `x || d` for an integer-or-NaN value (`parseInt` results). -/
def jsOrZ (x : Option ℤ) (d : ℤ) : ℤ :=
  match x with
  | none => d
  | some k => if k = 0 then d else k

/-- An integer-or-NaN value as a JavaScript number. -/
def intToJs : Option ℤ → JsNum
  | none => JsNum.nan
  | some k => JsNum.num (JQ.ofInt k)

/-- JavaScript `s || d` on strings: the empty string is falsy. -/
def strOr (s d : String) : String := if s = "" then d else s

def digitsVal (l : List Char) : ℕ :=
  l.foldl (fun a c => 10 * a + (c.toNat - 48)) 0

/-- Fuel-based splitting of a character list at a non-empty separator,
matching JavaScript `String.prototype.split` with a string separator. -/
def splitSubAux (sep : List Char) : ℕ → List Char → List Char → List (List Char)
  | 0, l, acc => [acc.reverse ++ l]
  | _ + 1, [], acc => [acc.reverse]
  | fuel + 1, c :: rest, acc =>
    if sep.isPrefixOf (c :: rest) then
      acc.reverse :: splitSubAux sep fuel ((c :: rest).drop sep.length) []
    else splitSubAux sep fuel rest (c :: acc)

/-- JavaScript `s.split(sep)`.  For an empty separator JavaScript splits
into single characters; the source only splits on `"|"`, `","`, `". "`. -/
def jsSplit (sep s : String) : List String :=
  match sep.toList with
  | [] => s.toList.map fun c => String.mk [c]
  | c :: cs => (splitSubAux (c :: cs) (s.toList.length + 1) s.toList []).map List.asString

/-- JavaScript `s.trim()` (whitespace at both ends). -/
def jsTrim (s : String) : String :=
  (((s.toList.dropWhile Char.isWhitespace).reverse.dropWhile Char.isWhitespace).reverse).asString

def listContains (sub : List Char) : List Char → Bool
  | [] => sub.isEmpty
  | c :: rest => sub.isPrefixOf (c :: rest) || listContains sub rest

/-- JavaScript `s.includes(sub)`. -/
def jsIncludes (s sub : String) : Bool := listContains sub.toList s.toList

/-- ASCII lower-casing of one character. -/
def lowerChar (c : Char) : Char :=
  if 'A' ≤ c ∧ c ≤ 'Z' then Char.ofNat (c.toNat + 32) else c

/-- JavaScript `s.toLowerCase()`, modelled on ASCII letters. -/
def lowerStr (s : String) : String := (s.toList.map lowerChar).asString

/-- JavaScript `parseInt(s)` in base 10: skip leading whitespace, optional
sign, then the longest prefix of decimal digits; NaN when there is none. -/
def parseIntZ (s : String) : Option ℤ :=
  let l := s.toList.dropWhile Char.isWhitespace
  let p : ℤ × List Char :=
    match l with
    | '-' :: r => (-1, r)
    | '+' :: r => (1, r)
    | _ => (1, l)
  let ds := p.2.takeWhile Char.isDigit
  if ds.isEmpty then none else some (p.1 * (digitsVal ds : ℤ))

/-- Exponent part of a JavaScript float literal (after `e`/`E`); an
invalid exponent part is ignored, contributing `0`. -/
def expPart (l : List Char) : ℤ :=
  let p : ℤ × List Char :=
    match l with
    | '-' :: r => (-1, r)
    | '+' :: r => (1, r)
    | _ => (1, l)
  let ds := p.2.takeWhile Char.isDigit
  if ds.isEmpty then 0 else p.1 * (digitsVal ds : ℤ)

def jqPow10 (e : ℤ) : JQ :=
  if e < 0 then JQ.make 1 ((10 : ℤ) ^ e.natAbs) else JQ.ofInt ((10 : ℤ) ^ e.natAbs)

/-- JavaScript `parseFloat(s)`: skip leading whitespace, optional sign,
digits with optional fraction and optional exponent; NaN when no digit is
found (the `Infinity` literal is not modelled; no caller produces it). -/
def parseFloatJ (s : String) : JsNum :=
  let l := s.toList.dropWhile Char.isWhitespace
  let p : ℤ × List Char :=
    match l with
    | '-' :: r => (-1, r)
    | '+' :: r => (1, r)
    | _ => (1, l)
  let intD := p.2.takeWhile Char.isDigit
  let l2 := p.2.dropWhile Char.isDigit
  let q : List Char × List Char :=
    match l2 with
    | '.' :: r => (r.takeWhile Char.isDigit, r.dropWhile Char.isDigit)
    | _ => ([], l2)
  if intD.isEmpty ∧ q.1.isEmpty then JsNum.nan
  else
    let mant : JQ :=
      JQ.make (p.1 * ((digitsVal intD : ℤ) * (10 : ℤ) ^ q.1.length + (digitsVal q.1 : ℤ)))
        ((10 : ℤ) ^ q.1.length)
    let e : ℤ :=
      match q.2 with
      | 'e' :: r => expPart r
      | 'E' :: r => expPart r
      | _ => 0
    JsNum.num (mant * jqPow10 e)

inductive Gender where
  | male : Gender
  | female : Gender
  | other : Gender
deriving DecidableEq

inductive ActivityLevel where
  | sedentary : ActivityLevel
  | light : ActivityLevel
  | moderate : ActivityLevel
  | active : ActivityLevel
  | very_active : ActivityLevel
deriving DecidableEq

/-- The `activityMultipliers` table of `calculateDailyCalories`. -/
def activityFactor : ActivityLevel → JQ
  | ActivityLevel.sedentary => 1.2
  | ActivityLevel.light => 1.375
  | ActivityLevel.moderate => 1.55
  | ActivityLevel.active => 1.725
  | ActivityLevel.very_active => 1.9

/-- `calculateDailyCalories` from the source: Harris-Benedict revised BMR
branched on gender (`'male'` vs everything else), scaled by the activity
multiplier and rounded with `Math.round`. -/
def calculateDailyCalories (weight height age : JQ) (gender : Gender)
    (activityLevel : ActivityLevel) : ℤ :=
  let bmr : JQ :=
    if gender = Gender.male then
      (88.362 : JQ) + (13.397 : JQ) * weight + (4.799 : JQ) * height - (5.677 : JQ) * age
    else
      (447.593 : JQ) + (9.247 : JQ) * weight + (3.098 : JQ) * height - (4.330 : JQ) * age
  jsRound (bmr * activityFactor activityLevel)

structure MealEntry where
  date : String
  foodName : String
  calories : JsNum
deriving DecidableEq

/-- The `UserProfile` state.  `none` models an absent (or `undefined`)
field; numeric fields additionally carry NaN through `JsNum`. -/
structure UserProfile where
  weight : Option JsNum := none
  height : Option JsNum := none
  dailyCalorieGoal : Option JsNum := none
  age : Option JsNum := none
  gender : Option Gender := none
  activityLevel : Option ActivityLevel := none
  dietaryPreferences : Option (List String) := none
  healthGoals : Option (List String) := none
  allergies : Option (List String) := none
  mealHistory : Option (List MealEntry) := none
deriving DecidableEq

/-- A partial update (`Partial<UserProfile>`): for each field, `none`
means the key is absent from the update, `some v` that the key is present
with value `v` (which may itself be `undefined`, i.e. inner `none`). -/
structure ProfileUpdate where
  weight : Option (Option JsNum) := none
  height : Option (Option JsNum) := none
  dailyCalorieGoal : Option (Option JsNum) := none
  age : Option (Option JsNum) := none
  gender : Option (Option Gender) := none
  activityLevel : Option (Option ActivityLevel) := none
  dietaryPreferences : Option (Option (List String)) := none
  healthGoals : Option (Option (List String)) := none
  allergies : Option (Option (List String)) := none
  mealHistory : Option (Option (List MealEntry)) := none
deriving DecidableEq

/-- The spread `{...userProfile, ...updates}`: keys present in the update
overwrite, last write wins per field. -/
def mergeProfile (p : UserProfile) (u : ProfileUpdate) : UserProfile where
  weight := u.weight.getD p.weight
  height := u.height.getD p.height
  dailyCalorieGoal := u.dailyCalorieGoal.getD p.dailyCalorieGoal
  age := u.age.getD p.age
  gender := u.gender.getD p.gender
  activityLevel := u.activityLevel.getD p.activityLevel
  dietaryPreferences := u.dietaryPreferences.getD p.dietaryPreferences
  healthGoals := u.healthGoals.getD p.healthGoals
  allergies := u.allergies.getD p.allergies
  mealHistory := u.mealHistory.getD p.mealHistory

/-- The truthiness guard and calculator call of `handleProfileUpdate`:
`some` of the recomputed goal when all five biometric fields are truthy
(present, non-NaN and nonzero; `gender` and `activityLevel` are non-empty
enum strings, hence truthy whenever present), `none` otherwise. -/
def goalOf (n : UserProfile) : Option ℤ :=
  match n.weight, n.height, n.age, n.gender, n.activityLevel with
  | some (JsNum.num w), some (JsNum.num h), some (JsNum.num a), some g, some act =>
    if w.num ≠ 0 ∧ h.num ≠ 0 ∧ a.num ≠ 0 then
      some (calculateDailyCalories w h a g act)
    else none
  | _, _, _, _, _ => none

/-- The conditional assignment of `handleProfileUpdate`: when `goalOf`
fires, `dailyCalorieGoal` is overwritten; otherwise the profile — in
particular its old `dailyCalorieGoal` — is returned unchanged. -/
def recomputeGoal (n : UserProfile) : UserProfile :=
  match goalOf n with
  | some g =>
    let goal := some (JsNum.num (JQ.ofInt g))
    { n with dailyCalorieGoal := goal }
  | none => n

/-- `handleProfileUpdate`: spread-merge the partial update, then apply the
conditional goal recomputation.  The source has no `else` branch clearing
the goal: when the guard fails the old `dailyCalorieGoal` is kept. -/
def handleProfileUpdate (p : UserProfile) (u : ProfileUpdate) : UserProfile :=
  recomputeGoal (mergeProfile p u)

/-- JavaScript `l.slice(-n)`: the last `n` elements (all of `l` when it is
shorter). -/
def jsSliceLast (n : ℕ) (l : List α) : List α := l.drop (l.length - n)

/-- `updateMealHistory`: append an entry carrying the supplied timestamp
and keep the last 10 entries, routing through `handleProfileUpdate`. -/
def updateMealHistory (p : UserProfile) (foodName : String) (calories : JsNum)
    (date : String) : UserProfile :=
  handleProfileUpdate p
    { mealHistory :=
        some (some (jsSliceLast 10 ((p.mealHistory.getD []) ++ [⟨date, foodName, calories⟩]))) }

structure NutritionalInfo where
  protein : Option JsNum
  carbs : Option JsNum
  fats : Option JsNum
  fiber : Option JsNum
deriving DecidableEq

structure AnalysisResult where
  foodName : String
  calories : ℤ
  confidence : JQ
  details : Option String
  nutritionalInfo : Option NutritionalInfo := none
  recommendations : Option (List String) := none
  needsClarification : Bool
deriving DecidableEq

/-- `text.split("|").map(item => item.trim())`, shared by both reply
handlers. -/
def replyFields (text : String) : List String := (jsSplit "|" text).map jsTrim

/-- Pipe-field number `i` of a reply, defaulting to `""`. -/
def rawField (text : String) (i : ℕ) : String := (replyFields text).getD i ""

/-- Outcome of the parsing part of `handleAnalyze`: the result that is set
plus the meal-history append that is performed when both the raw
`foodName` and raw `calories` strings are truthy (non-empty). -/
structure AnalyzeOutcome where
  result : AnalysisResult
  mealAppend : Option (String × JsNum)
deriving DecidableEq

/-- The result object built by `handleAnalyze` from the six destructured
trimmed pipe fields. -/
def analysisResultMk (foodName calories confidence nutrition details tips : String) :
    AnalysisResult :=
  let parts := (jsSplit "," nutrition).map parseFloatJ
  let confidenceValue := jsOrJ (parseFloatJ confidence) 0
  { foodName := strOr foodName "Unknown Food"
    calories := jsOrZ (parseIntZ calories) 0
    confidence := confidenceValue
    details := some details
    nutritionalInfo := some ⟨parts.get? 0, parts.get? 1, parts.get? 2, parts.get? 3⟩
    recommendations := some (jsSplit ". " tips)
    needsClarification := JQ.blt confidenceValue (0.3 : JQ) }

/-- The guard `if (foodName && calories)` before `updateMealHistory`:
both raw trimmed strings must be non-empty (truthy). -/
def mealAppendMk (foodName calories : String) : Option (String × JsNum) :=
  if foodName ≠ "" ∧ calories ≠ "" then
    some (foodName, intToJs (parseIntZ calories))
  else none

/-- The parsing part of `handleAnalyze` on the raw reply `text`.  When the
reply has fewer than six pipe fields, the destructured `nutrition` or
`tips` variable is `undefined` and `nutrition.split(",")` resp.
`tips.split(". ")` throws a `TypeError`, modelled as `Except.error ()`:
the surrounding `catch` then sets the error message and no result is
produced. -/
def analyzeReply (text : String) : Except Unit AnalyzeOutcome :=
  let fields := replyFields text
  match fields.get? 0, fields.get? 1, fields.get? 2, fields.get? 3,
      fields.get? 4, fields.get? 5 with
  | some foodName, some calories, some confidence, some nutrition, some details, some tips =>
    Except.ok
      { result := analysisResultMk foodName calories confidence nutrition details tips
        mealAppend := mealAppendMk foodName calories }
  | _, _, _, _, _, _ => Except.error ()

/-- Whether the parsing part of `handleAnalyze` throws on `text`. -/
def analyzeRaises (text : String) : Bool :=
  match analyzeReply text with
  | Except.error _ => true
  | Except.ok _ => false

/-- The `AnalysisResult` set by `handleAnalyze`, when one is set. -/
def analysisResultOf (text : String) : Option AnalysisResult :=
  match analyzeReply text with
  | Except.ok out => some out.result
  | Except.error _ => none

/-- `parseFloat(confidence)` in `handleClarification`, where the
destructured `confidence` may be `undefined` (parsing to NaN). -/
def clarifyConfParsed (text : String) : JsNum :=
  match (replyFields text).get? 2 with
  | some c => parseFloatJ c
  | none => JsNum.nan

/-- The parsing part of `handleClarification` on the raw reply `text`:
four pipe fields, `confidence` falls back to `0.7`, `needsClarification`
is hard-coded `false`, and no field access can throw (the first
destructured variable always exists). -/
def clarifyReply (text : String) : AnalysisResult :=
  let fields := replyFields text
  let foodName := (fields.get? 0).getD ""
  let calories := fields.get? 1
  let details := fields.get? 3
  { foodName := strOr foodName "Unknown Food"
    calories := jsOrZ (calories.bind parseIntZ) 0
    confidence := jsOrJ (clarifyConfParsed text) (0.7 : JQ)
    details :=
      match details with
      | some d => if d = "" then none else some d
      | none => none
    nutritionalInfo := none
    recommendations := none
    needsClarification := false }

/-- The profile effect of one `handleAnalyze` call: on a successful parse
with truthy raw `foodName` and `calories` strings, `updateMealHistory` is
called; otherwise the profile is untouched. -/
def handleAnalyzeProfile (p : UserProfile) (text date : String) : UserProfile :=
  match analyzeReply text with
  | Except.error _ => p
  | Except.ok out =>
    match out.mealAppend with
    | some nc => updateMealHistory p nc.1 nc.2 date
    | none => p

def jqRender (q : JQ) : String :=
  if q.den = 1 then toString q.num else toString q.num ++ "/" ++ toString q.den

def remainingMsg (q : JQ) : String :=
  "You have " ++ jqRender q ++ " calories remaining for today."

def meatMsg : String := "Consider trying plant-based alternatives for this dish."

def allergyMsg (a : String) : String := "⚠️ Warning: This food may contain " ++ a

def portionMsg : String :=
  "Consider a smaller portion size to align with your weight loss goals."

/-- `result.details?.toLowerCase().includes(sub)`. -/
def detailsIncludes (r : AnalysisResult) (sub : String) : Bool :=
  match r.details with
  | some d => jsIncludes (lowerStr d) sub
  | none => false

/-- `getPersonalizedSuggestions` from the source.  Note the first guard is
JavaScript truthiness of `dailyCalorieGoal` (skipping NaN and `0`). -/
def getPersonalizedSuggestions (p : UserProfile) (r : AnalysisResult) : List String :=
  (match p.dailyCalorieGoal with
   | some (JsNum.num g) =>
     if g.num ≠ 0 then [remainingMsg (g - JQ.ofInt r.calories)] else []
   | _ => [])
  ++ (if (p.dietaryPreferences.getD []).contains "vegetarian" && detailsIncludes r "meat" then
        [meatMsg]
      else [])
  ++ ((p.allergies.getD []).filterMap fun a =>
        if detailsIncludes r (lowerStr a) then some (allergyMsg a) else none)
  ++ (if (p.healthGoals.getD []).contains "weight_loss" && decide (r.calories > 500) then
        [portionMsg]
      else [])

/-- Transcription of claim C6's wording of the recommendation engine: the
remaining-calories statement is emitted whenever the goal is set (to a
numeric value), not merely when it is truthy. -/
def suggestionsSpecC6 (p : UserProfile) (r : AnalysisResult) : List String :=
  (match p.dailyCalorieGoal with
   | some (JsNum.num g) => [remainingMsg (g - JQ.ofInt r.calories)]
   | _ => [])
  ++ (if (p.dietaryPreferences.getD []).contains "vegetarian" && detailsIncludes r "meat" then
        [meatMsg]
      else [])
  ++ ((p.allergies.getD []).filterMap fun a =>
        if detailsIncludes r (lowerStr a) then some (allergyMsg a) else none)
  ++ (if (p.healthGoals.getD []).contains "weight_loss" && decide (r.calories > 500) then
        [portionMsg]
      else [])

/-- True when `dailyCalorieGoal` is truthy (numeric and nonzero). -/
def numTruthy : Option JsNum → Bool
  | some (JsNum.num q) => q.num != 0
  | _ => false

/-- True when `dailyCalorieGoal` carries a numeric value (possibly zero). -/
def isSomeNum : Option JsNum → Bool
  | some (JsNum.num _) => true
  | _ => false

/-- Nutrition field number `i` of a result (0 = protein, 1 = carbs,
2 = fats, 3 = fiber): `none` when `nutritionalInfo` is absent, otherwise
the field, itself `none` when `undefined`. -/
def nutriAt (r : AnalysisResult) (i : ℕ) : Option (Option JsNum) :=
  match r.nutritionalInfo with
  | none => none
  | some ni =>
    some (match i with
      | 0 => ni.protein
      | 1 => ni.carbs
      | 2 => ni.fats
      | _ => ni.fiber)

/-- The complete biometric update used by the C2 counterexample. -/
def updFull : ProfileUpdate :=
  { weight := some (some (JsNum.num (JQ.ofInt 70)))
    height := some (some (JsNum.num (JQ.ofInt 175)))
    age := some (some (JsNum.num (JQ.ofInt 30)))
    gender := some (some Gender.male)
    activityLevel := some (some ActivityLevel.moderate) }

/-- The update that removes `weight` again (key present, value
`undefined`). -/
def updClearWeight : ProfileUpdate := { weight := some none }

/-- Ten meal entries used by the C5 witness. -/
def tenMeals : List MealEntry := List.replicate 10 ⟨"t", "m", JsNum.num (JQ.ofInt 1)⟩

/-- Profile with `dailyCalorieGoal` set to the numeric value 0, used by
the C6 counterexample. -/
def zeroGoalProfile : UserProfile := { dailyCalorieGoal := some (JsNum.num (JQ.ofInt 0)) }

/-- Result with 100 calories and no details, used by the C6
counterexample. -/
def plainResult : AnalysisResult :=
  { foodName := "X"
    calories := 100
    confidence := JQ.ofInt 1
    details := none
    needsClarification := false }

lemma recomputeGoal_mealHistory (n : UserProfile) :
    (recomputeGoal n).mealHistory = n.mealHistory := by
  unfold recomputeGoal
  split
  · rfl
  · rfl

lemma updateMealHistory_mealHistory (p : UserProfile) (n : String) (c : JsNum) (d : String) :
    (updateMealHistory p n c d).mealHistory
      = some (jsSliceLast 10 ((p.mealHistory.getD []) ++ [⟨d, n, c⟩])) := by
  unfold updateMealHistory handleProfileUpdate
  rw [recomputeGoal_mealHistory]
  rfl

/-- Claim C1: for every complete valid biometric input the calorie goal is
`round(BMR × activity factor)` with the Harris-Benedict revised BMR
branched by gender and the documented factor table; in particular
weight 70, height 175, age 30, male, moderate yields 2628. -/
theorem C1_dailyCalorieGoal :
    (∀ w h a : JQ, ∀ act : ActivityLevel,
      calculateDailyCalories w h a Gender.male act
        = jsRound (((88.362 : JQ) + (13.397 : JQ) * w + (4.799 : JQ) * h - (5.677 : JQ) * a)
            * activityFactor act))
  ∧ (∀ w h a : JQ, ∀ g : Gender, ∀ act : ActivityLevel, g ≠ Gender.male →
      calculateDailyCalories w h a g act
        = jsRound (((447.593 : JQ) + (9.247 : JQ) * w + (3.098 : JQ) * h - (4.330 : JQ) * a)
            * activityFactor act))
  ∧ activityFactor ActivityLevel.sedentary = (1.2 : JQ)
  ∧ activityFactor ActivityLevel.light = (1.375 : JQ)
  ∧ activityFactor ActivityLevel.moderate = (1.55 : JQ)
  ∧ activityFactor ActivityLevel.active = (1.725 : JQ)
  ∧ activityFactor ActivityLevel.very_active = (1.9 : JQ)
  ∧ calculateDailyCalories 70 175 30 Gender.male ActivityLevel.moderate = 2628 := by
  refine ⟨fun w h a act => rfl, fun w h a g act hg => ?_, rfl, rfl, rfl, rfl, rfl, by decide⟩
  cases g
  · exact absurd rfl hg
  · rfl
  · rfl

/-- Witness for C1: the female branch at a concrete input. -/
theorem C1_witness :
    calculateDailyCalories 60 160 25 Gender.female ActivityLevel.light
      = jsRound (((447.593 : JQ) + (9.247 : JQ) * 60 + (3.098 : JQ) * 160 - (4.330 : JQ) * 25)
          * activityFactor ActivityLevel.light)
  ∧ calculateDailyCalories 60 160 25 Gender.female ActivityLevel.light = 1911 :=
  ⟨C1_dailyCalorieGoal.2.1 60 160 25 Gender.female ActivityLevel.light (by decide), by decide⟩

/-- Counterexample to claim C2 as stated: after an update that removes
`weight`, the five biometric fields are no longer all present, yet
`dailyCalorieGoal` is not cleared — it keeps the stale value 2628. -/
theorem C2_counterexample :
    (handleProfileUpdate (handleProfileUpdate {} updFull) updClearWeight).weight = none
  ∧ (handleProfileUpdate (handleProfileUpdate {} updFull) updClearWeight).dailyCalorieGoal
      = some (JsNum.num (JQ.ofInt 2628)) := by
  constructor
  · decide
  · decide

/-- Amended claim C2: after `update`, when the five merged biometric
fields are all truthy the goal is overwritten with the calculator's
output; otherwise the goal keeps whatever value the merge produced
(possibly stale), and is never cleared. -/
theorem C2_amendedInvariant (p : UserProfile) (u : ProfileUpdate) :
    (∀ g : ℤ, goalOf (mergeProfile p u) = some g →
      (handleProfileUpdate p u).dailyCalorieGoal = some (JsNum.num (JQ.ofInt g)))
  ∧ (goalOf (mergeProfile p u) = none →
      (handleProfileUpdate p u).dailyCalorieGoal = (mergeProfile p u).dailyCalorieGoal) := by
  constructor
  · intro g hg
    unfold handleProfileUpdate recomputeGoal
    rw [hg]
  · intro hg
    unfold handleProfileUpdate recomputeGoal
    rw [hg]

/-- Witness for C2 (amended): a complete profile gets goal 2628, an empty
update on the empty profile leaves the goal absent. -/
theorem C2_witness :
    (handleProfileUpdate {} updFull).dailyCalorieGoal = some (JsNum.num (JQ.ofInt 2628))
  ∧ (handleProfileUpdate {} {}).dailyCalorieGoal = none := by
  constructor
  · exact (C2_amendedInvariant {} updFull).1 2628 (by decide)
  · exact ((C2_amendedInvariant {} {}).2 (by decide)).trans (by decide)

/-- Claim C5: `updateMealHistory` keeps at most 10 entries; when fewer
than 10 are present the new entry is appended preserving order; when
exactly 10 are present the oldest entry is evicted (FIFO) and the new one
appended. -/
theorem C5_mealHistoryBound (p : UserProfile) (n : String) (c : JsNum) (d : String) :
    ((updateMealHistory p n c d).mealHistory.getD []).length ≤ 10
  ∧ ((p.mealHistory.getD []).length < 10 →
      (updateMealHistory p n c d).mealHistory
        = some ((p.mealHistory.getD []) ++ [⟨d, n, c⟩]))
  ∧ ((p.mealHistory.getD []).length = 10 →
      (updateMealHistory p n c d).mealHistory
        = some ((p.mealHistory.getD []).drop 1 ++ [⟨d, n, c⟩])) := by
  have key := updateMealHistory_mealHistory p n c d
  refine ⟨?_, ?_, ?_⟩
  · rw [key]
    simp only [Option.getD_some, jsSliceLast, List.length_drop]
    omega
  · intro hlt
    rw [key]
    unfold jsSliceLast
    have hz : ((p.mealHistory.getD []) ++ [(⟨d, n, c⟩ : MealEntry)]).length - 10 = 0 := by
      simp only [List.length_append, List.length_singleton]
      omega
    rw [hz, List.drop_zero]
  · intro heq
    rw [key]
    unfold jsSliceLast
    have h1 : ((p.mealHistory.getD []) ++ [(⟨d, n, c⟩ : MealEntry)]).length - 10 = 1 := by
      simp only [List.length_append, List.length_singleton]
      omega
    rw [h1, List.drop_append_of_le_length (by omega)]

/-- Witness for C5: appending to a 10-entry history evicts the oldest. -/
theorem C5_witness :
    (updateMealHistory { mealHistory := some tenMeals } "new" (JsNum.num (JQ.ofInt 5))
        "d").mealHistory
      = some (tenMeals.drop 1 ++ [⟨"d", "new", JsNum.num (JQ.ofInt 5)⟩])
  ∧ tenMeals.length = 10 :=
  ⟨(C5_mealHistoryBound { mealHistory := some tenMeals } "new" (JsNum.num (JQ.ofInt 5))
      "d").2.2 (by decide), by decide⟩

lemma analyzeReply_of_fields (text : String) (f0 f1 f2 f3 f4 f5 : String)
    (rest : List String)
    (hf : replyFields text = f0 :: f1 :: f2 :: f3 :: f4 :: f5 :: rest) :
    analyzeReply text
      = Except.ok
          { result := analysisResultMk f0 f1 f2 f3 f4 f5
            mealAppend := mealAppendMk f0 f1 } := by
  unfold analyzeReply
  rw [hf]
  rfl

lemma analyzeReply_short (text : String) (h : (replyFields text).length < 6) :
    analyzeReply text = Except.error () := by
  unfold analyzeReply
  dsimp only
  split
  · rename_i heq0 heq1 heq2 heq3 heq4 heq5
    exfalso
    have h5 : (replyFields text).get? 5 = none := List.get?_eq_none.mpr (by omega)
    rw [h5] at heq5
    exact Option.noConfusion heq5
  · rfl

lemma replyFields_long (text : String) (h6 : 6 ≤ (replyFields text).length) :
    ∃ f0 f1 f2 f3 f4 f5 rest,
      replyFields text = f0 :: f1 :: f2 :: f3 :: f4 :: f5 :: rest := by
  rcases hl : replyFields text with _ | ⟨a, _ | ⟨b, _ | ⟨c, _ | ⟨d, _ | ⟨e, _ | ⟨f, r⟩⟩⟩⟩⟩⟩ <;>
    rw [hl] at h6 <;> simp at h6
  exact ⟨a, b, c, d, e, f, r, rfl⟩

lemma analysisResultOf_char (text : String) (r : AnalysisResult)
    (h : analysisResultOf text = some r) :
    r = analysisResultMk (rawField text 0) (rawField text 1) (rawField text 2)
          (rawField text 3) (rawField text 4) (rawField text 5) := by
  by_cases h6 : 6 ≤ (replyFields text).length
  · obtain ⟨f0, f1, f2, f3, f4, f5, rest, hf⟩ := replyFields_long text h6
    unfold analysisResultOf at h
    rw [analyzeReply_of_fields text f0 f1 f2 f3 f4 f5 rest hf] at h
    have hr : r = analysisResultMk f0 f1 f2 f3 f4 f5 := (Option.some.inj h).symm
    have e0 : rawField text 0 = f0 := by unfold rawField; rw [hf]; rfl
    have e1 : rawField text 1 = f1 := by unfold rawField; rw [hf]; rfl
    have e2 : rawField text 2 = f2 := by unfold rawField; rw [hf]; rfl
    have e3 : rawField text 3 = f3 := by unfold rawField; rw [hf]; rfl
    have e4 : rawField text 4 = f4 := by unfold rawField; rw [hf]; rfl
    have e5 : rawField text 5 = f5 := by unfold rawField; rw [hf]; rfl
    rw [e0, e1, e2, e3, e4, e5]
    exact hr
  · exfalso
    unfold analysisResultOf at h
    rw [analyzeReply_short text (by omega)] at h
    exact Option.noConfusion h

/-- Claim C3 counterexample: on the one-field reply `"hello"` the
analysis parse throws (the destructured `nutrition` is `undefined`), so
no defaulted result is produced. -/
theorem C3_counterexample :
    analyzeRaises "hello" = true ∧ analysisResultOf "hello" = none := by
  constructor
  · decide
  · decide

/-- Amended claim C3: replies with fewer than six pipe fields make the
parse throw (the error is caught and surfaced, no result is set); replies
with at least six fields never throw, and unparseable fields fall back to
the documented defaults (`"Unknown Food"`, calories 0, confidence 0,
`needsClarification` true). -/
theorem C3_parseTotality (text : String) :
    ((replyFields text).length < 6 → analyzeRaises text = true)
  ∧ (6 ≤ (replyFields text).length →
      analyzeRaises text = false
      ∧ (rawField text 0 = "" →
          Option.map AnalysisResult.foodName (analysisResultOf text) = some "Unknown Food")
      ∧ (parseIntZ (rawField text 1) = none →
          Option.map AnalysisResult.calories (analysisResultOf text) = some 0)
      ∧ (parseFloatJ (rawField text 2) = JsNum.nan →
          Option.map AnalysisResult.confidence (analysisResultOf text) = some (JQ.ofInt 0)
          ∧ Option.map AnalysisResult.needsClarification (analysisResultOf text)
              = some true)) := by
  constructor
  · intro h
    unfold analyzeRaises
    rw [analyzeReply_short text h]
  · intro h6
    obtain ⟨f0, f1, f2, f3, f4, f5, rest, hf⟩ := replyFields_long text h6
    have hok := analyzeReply_of_fields text f0 f1 f2 f3 f4 f5 rest hf
    have hres : analysisResultOf text = some (analysisResultMk f0 f1 f2 f3 f4 f5) := by
      unfold analysisResultOf
      rw [hok]
    have e0 : rawField text 0 = f0 := by unfold rawField; rw [hf]; rfl
    have e1 : rawField text 1 = f1 := by unfold rawField; rw [hf]; rfl
    have e2 : rawField text 2 = f2 := by unfold rawField; rw [hf]; rfl
    refine ⟨by unfold analyzeRaises; rw [hok], ?_, ?_, ?_⟩
    · intro h0
      rw [e0] at h0
      rw [hres]
      unfold analysisResultMk
      simp [strOr, h0]
    · intro h1
      rw [e1] at h1
      rw [hres]
      unfold analysisResultMk
      simp [jsOrZ, h1]
    · intro h2
      rw [e2] at h2
      rw [hres]
      unfold analysisResultMk
      simp [jsOrJ, h2]
      constructor
      · rfl
      · decide

/-- Witness for C3 (amended): a six-field reply with empty name, and
unparseable calories and confidence, parses without throwing to the
documented defaults; the short reply `"hi"` throws. -/
theorem C3_witness :
    analyzeRaises "hi" = true
  ∧ analyzeRaises "|y|z|x|d|t" = false
  ∧ Option.map AnalysisResult.foodName (analysisResultOf "|y|z|x|d|t") = some "Unknown Food"
  ∧ Option.map AnalysisResult.calories (analysisResultOf "|y|z|x|d|t") = some 0
  ∧ Option.map AnalysisResult.confidence (analysisResultOf "|y|z|x|d|t") = some (JQ.ofInt 0)
  ∧ Option.map AnalysisResult.needsClarification (analysisResultOf "|y|z|x|d|t")
      = some true := by
  have h := (C3_parseTotality "|y|z|x|d|t").2 (by decide)
  exact ⟨(C3_parseTotality "hi").1 (by decide), h.1, h.2.1 (by decide), h.2.2.1 (by decide),
    (h.2.2.2 (by decide)).1, (h.2.2.2 (by decide)).2⟩

/-- Claim C4 counterexample: a clarification reply with confidence 0.1
(strictly below 0.3) still gets `needsClarification = false`, because
`handleClarification` hard-codes it. -/
theorem C4_counterexample :
    JQ.blt (clarifyReply "Pizza|300|0.1|cheesy").confidence (0.3 : JQ) = true
  ∧ (clarifyReply "Pizza|300|0.1|cheesy").needsClarification = false := by
  constructor
  · decide
  · decide

/-- Amended claim C4: for the six-field analysis parse,
`needsClarification` is true iff the (defaulted) confidence is strictly
below 0.3, false at exactly 0.3; the four-field clarification parse
always sets `needsClarification = false`, whatever the confidence. -/
theorem C4_needsClarification (text : String) (r : AnalysisResult)
    (h : analysisResultOf text = some r) :
    (r.needsClarification = true ↔ JQ.blt r.confidence (0.3 : JQ) = true)
  ∧ (clarifyReply text).needsClarification = false := by
  have hr := analysisResultOf_char text r h
  constructor
  · rw [hr]
    exact Iff.rfl
  · rfl

/-- Witness for C4 (amended): a concrete reply at confidence 0.3 exactly,
where `needsClarification` comes out false. -/
theorem C4_witness :
    ((analysisResultMk "A" "100" "0.3" "1,2,3,4" "d" "t").needsClarification = true
      ↔ JQ.blt (analysisResultMk "A" "100" "0.3" "1,2,3,4" "d" "t").confidence (0.3 : JQ)
          = true)
  ∧ (clarifyReply "A|100|0.3|1,2,3,4|d|t").needsClarification = false
  ∧ (analysisResultMk "A" "100" "0.3" "1,2,3,4" "d" "t").needsClarification = false :=
  ⟨(C4_needsClarification "A|100|0.3|1,2,3,4|d|t"
      (analysisResultMk "A" "100" "0.3" "1,2,3,4" "d" "t") (by decide)).1,
   (C4_needsClarification "A|100|0.3|1,2,3,4|d|t"
      (analysisResultMk "A" "100" "0.3" "1,2,3,4" "d" "t") (by decide)).2, by decide⟩

/-- Claim C7 counterexample: a reply whose calories field is `"-200"`
parses to a negative calories value. -/
theorem C7_counterexample :
    Option.map AnalysisResult.calories (analysisResultOf "Food|-200|0.5|1,2,3,4|d|t")
      = some (-200)
  ∧ (-200 : ℤ) < 0 := by
  constructor
  · decide
  · decide

/-- Amended claim C7: the calories of a parsed result are always the
integer `parseInt(field) || 0` — hence 0 when the field is unparseable or
parses to 0, but negative when the field parses to a negative integer —
for both the six-field analysis parse and the clarification parse. -/
theorem C7_caloriesInt (text : String) (r : AnalysisResult)
    (h : analysisResultOf text = some r) :
    r.calories = jsOrZ (parseIntZ (rawField text 1)) 0
  ∧ (clarifyReply text).calories = jsOrZ (((replyFields text).get? 1).bind parseIntZ) 0 := by
  have hr := analysisResultOf_char text r h
  constructor
  · rw [hr]
    rfl
  · rfl

/-- Witness for C7 (amended): an unparseable calories field yields 0 in
both parse paths. -/
theorem C7_witness :
    (analysisResultMk "Food" "x" "0.5" "1,2,3,4" "d" "t").calories
      = jsOrZ (parseIntZ (rawField "Food|x|0.5|1,2,3,4|d|t" 1)) 0
  ∧ (clarifyReply "Food|x|0.5|1,2,3,4|d|t").calories
      = jsOrZ (((replyFields "Food|x|0.5|1,2,3,4|d|t").get? 1).bind parseIntZ) 0
  ∧ (analysisResultMk "Food" "x" "0.5" "1,2,3,4" "d" "t").calories = 0 :=
  ⟨(C7_caloriesInt "Food|x|0.5|1,2,3,4|d|t"
      (analysisResultMk "Food" "x" "0.5" "1,2,3,4" "d" "t") (by decide)).1,
   (C7_caloriesInt "Food|x|0.5|1,2,3,4|d|t"
      (analysisResultMk "Food" "x" "0.5" "1,2,3,4" "d" "t") (by decide)).2, by decide⟩

/-- Claim C8: in the clarification parse an unparseable or zero-valued
confidence field defaults to 0.7, while in the six-field analysis parse an
unparseable confidence defaults to 0. -/
theorem C8_confidenceDefaults (s t : String) (r : AnalysisResult)
    (h1 : clarifyConfParsed s = JsNum.nan ∨ clarifyConfParsed s = JsNum.num (JQ.ofInt 0))
    (h2 : analysisResultOf t = some r)
    (h3 : parseFloatJ (rawField t 2) = JsNum.nan) :
    (clarifyReply s).confidence = JQ.make 7 10 ∧ r.confidence = JQ.ofInt 0 := by
  constructor
  · show jsOrJ (clarifyConfParsed s) (0.7 : JQ) = JQ.make 7 10
    rcases h1 with h1 | h1
    · rw [h1]
      decide
    · rw [h1]
      decide
  · have hr := analysisResultOf_char t r h2
    rw [hr]
    show jsOrJ (parseFloatJ (rawField t 2)) 0 = JQ.ofInt 0
    rw [h3]
    rfl

/-- Witness for C8: a zero-valued clarification confidence becomes 0.7,
an unparseable analysis confidence becomes 0. -/
theorem C8_witness :
    (clarifyReply "A|100|0|d").confidence = JQ.make 7 10
  ∧ (analysisResultMk "A" "100" "x" "1,2,3,4" "d" "t").confidence = JQ.ofInt 0 :=
  C8_confidenceDefaults "A|100|0|d" "A|100|x|1,2,3,4|d|t" _ (Or.inr (by decide)) (by decide)
    (by decide)

/-- Claim C9 counterexample: a reply whose calories field is `"0"` parses
falsy (`parseInt` gives 0), yet the meal-history append still happens,
because the source guards on the raw string, not the parsed number. -/
theorem C9_counterexample :
    parseIntZ (rawField "Rice|0|0.9|1,2,3,4|d|t" 1) = some 0
  ∧ (handleAnalyzeProfile {} "Rice|0|0.9|1,2,3,4|d|t" "t0").mealHistory
      = some [⟨"t0", "Rice", JsNum.num (JQ.ofInt 0)⟩]
  ∧ ({} : UserProfile).mealHistory = none := by
  refine ⟨by decide, by decide, by decide⟩

/-- Amended claim C9: the meal-history append happens exactly when the
parse does not throw and both the raw trimmed `foodName` and `calories`
strings are non-empty; the appended calories are `parseInt` of the raw
string (possibly 0 or NaN).  When the parse throws or either raw string
is empty, `mealHistory` is unchanged. -/
theorem C9_appendGuard (p : UserProfile) (text d : String) :
    (analyzeRaises text = true → handleAnalyzeProfile p text d = p)
  ∧ (rawField text 0 = "" ∨ rawField text 1 = "" →
      (handleAnalyzeProfile p text d).mealHistory = p.mealHistory)
  ∧ (analyzeRaises text = false → rawField text 0 ≠ "" → rawField text 1 ≠ "" →
      (handleAnalyzeProfile p text d).mealHistory
        = some (jsSliceLast 10 ((p.mealHistory.getD [])
            ++ [⟨d, rawField text 0, intToJs (parseIntZ (rawField text 1))⟩]))) := by
  by_cases h6 : 6 ≤ (replyFields text).length
  · obtain ⟨f0, f1, f2, f3, f4, f5, rest, hf⟩ := replyFields_long text h6
    have hok := analyzeReply_of_fields text f0 f1 f2 f3 f4 f5 rest hf
    have e0 : rawField text 0 = f0 := by unfold rawField; rw [hf]; rfl
    have e1 : rawField text 1 = f1 := by unfold rawField; rw [hf]; rfl
    have hraises : analyzeRaises text = false := by unfold analyzeRaises; rw [hok]
    refine ⟨?_, ?_, ?_⟩
    · intro habs
      rw [hraises] at habs
      exact Bool.noConfusion habs
    · intro hemp
      rw [e0, e1] at hemp
      unfold handleAnalyzeProfile
      rw [hok]
      have hnone : mealAppendMk f0 f1 = none := by
        unfold mealAppendMk
        rw [if_neg]
        intro hc
        rcases hemp with hemp | hemp
        · exact hc.1 hemp
        · exact hc.2 hemp
      rw [hnone]
    · intro _ h0 h1
      rw [e0] at h0
      rw [e1] at h1
      unfold handleAnalyzeProfile
      rw [hok]
      have hsome : mealAppendMk f0 f1 = some (f0, intToJs (parseIntZ f1)) := by
        unfold mealAppendMk
        rw [if_pos ⟨h0, h1⟩]
      rw [hsome, e0, e1]
      exact updateMealHistory_mealHistory p f0 (intToJs (parseIntZ f1)) d
  · have herr := analyzeReply_short text (by omega)
    have hraises : analyzeRaises text = true := by unfold analyzeRaises; rw [herr]
    have hid : handleAnalyzeProfile p text d = p := by
      unfold handleAnalyzeProfile
      rw [herr]
    exact ⟨fun _ => hid, fun _ => by rw [hid], fun habs => by
      rw [hraises] at habs
      exact Bool.noConfusion habs⟩

/-- Witness for C9 (amended): a non-empty name and calories field append
the entry; an empty name leaves history unchanged. -/
theorem C9_witness :
    (handleAnalyzeProfile {} "Rice|200|0.9|1,2,3,4|d|t" "t0").mealHistory
      = some [⟨"t0", "Rice", JsNum.num (JQ.ofInt 200)⟩]
  ∧ (handleAnalyzeProfile {} "|200|0.9|1,2,3,4|d|t" "t0").mealHistory = none := by
  constructor
  · exact ((C9_appendGuard {} "Rice|200|0.9|1,2,3,4|d|t" "t0").2.2 (by decide) (by decide)
      (by decide)).trans (by decide)
  · exact ((C9_appendGuard {} "|200|0.9|1,2,3,4|d|t" "t0").2.1 (Or.inl (by decide))).trans
      (by decide)

/-- Claim C10: when comma part `i` of the nutrition field exists but is
unparseable, the corresponding `nutritionalInfo` entry is present and
holds NaN — it is neither coerced to 0 nor omitted. -/
theorem C10_nanPreserved (text : String) (r : AnalysisResult) (i : ℕ) (s : String)
    (h : analysisResultOf text = some r) (hi : i < 4)
    (hs : (jsSplit "," (rawField text 3)).get? i = some s)
    (hu : parseFloatJ s = JsNum.nan) :
    nutriAt r i = some (some JsNum.nan) := by
  have hr := analysisResultOf_char text r h
  have hpart : ((jsSplit "," (rawField text 3)).map parseFloatJ).get? i
      = some JsNum.nan := by
    rw [List.get?_map, hs]
    simp [hu]
  rw [hr]
  interval_cases i
  · show some (((jsSplit "," (rawField text 3)).map parseFloatJ).get? 0) = some (some JsNum.nan)
    rw [hpart]
  · show some (((jsSplit "," (rawField text 3)).map parseFloatJ).get? 1) = some (some JsNum.nan)
    rw [hpart]
  · show some (((jsSplit "," (rawField text 3)).map parseFloatJ).get? 2) = some (some JsNum.nan)
    rw [hpart]
  · show some (((jsSplit "," (rawField text 3)).map parseFloatJ).get? 3) = some (some JsNum.nan)
    rw [hpart]

/-- Witness for C10: the unparseable protein part `"abc"` is kept as NaN
in the parsed result. -/
theorem C10_witness :
    nutriAt (analysisResultMk "A" "100" "0.5" "abc,2,3" "d" "t") 0 = some (some JsNum.nan) :=
  C10_nanPreserved "A|100|0.5|abc,2,3|d|t"
    (analysisResultMk "A" "100" "0.5" "abc,2,3" "d" "t") 0 "abc" (by decide) (by decide)
    (by decide) (by decide)

/-- Claim C6 counterexample: with `dailyCalorieGoal` set to 0 the claim's
reading emits the remaining-calories statement (goal is set), but the
source's truthiness guard skips it and returns no suggestions. -/
theorem C6_counterexample :
    isSomeNum zeroGoalProfile.dailyCalorieGoal = true
  ∧ getPersonalizedSuggestions zeroGoalProfile plainResult = []
  ∧ suggestionsSpecC6 zeroGoalProfile plainResult = [remainingMsg (JQ.make (-100) 1)] := by
  refine ⟨by decide, by decide, by decide⟩

/-- Amended claim C6: the engine returns exactly the suggestions of the
claim's fixed order, except that the remaining-calories statement is
emitted only when `dailyCalorieGoal` is truthy (a nonzero, non-NaN
number), not merely set; whenever the goal is not the number 0 (and not
NaN), the two readings agree. -/
theorem C6_suggestions (p : UserProfile) (r : AnalysisResult)
    (h : numTruthy p.dailyCalorieGoal = isSomeNum p.dailyCalorieGoal) :
    getPersonalizedSuggestions p r = suggestionsSpecC6 p r := by
  unfold getPersonalizedSuggestions suggestionsSpecC6
  congr 1
  rcases hd : p.dailyCalorieGoal with _ | j
  · rfl
  · cases j with
    | nan => rfl
    | num g =>
      rw [hd] at h
      simp only [numTruthy, isSomeNum] at h
      simp only [bne_iff_ne, ne_eq] at h
      simp [h]

/-- Witness for C6 (amended): a profile exercising all four suggestion
kinds in order. -/
theorem C6_witness :
    getPersonalizedSuggestions
        { dailyCalorieGoal := some (JsNum.num (JQ.ofInt 2000))
          dietaryPreferences := some ["vegetarian"]
          allergies := some ["Peanut"]
          healthGoals := some ["weight_loss"] }
        { foodName := "Dish"
          calories := 600
          confidence := JQ.ofInt 1
          details := some "Meat with peanut sauce"
          needsClarification := false }
      = suggestionsSpecC6
          { dailyCalorieGoal := some (JsNum.num (JQ.ofInt 2000))
            dietaryPreferences := some ["vegetarian"]
            allergies := some ["Peanut"]
            healthGoals := some ["weight_loss"] }
          { foodName := "Dish"
            calories := 600
            confidence := JQ.ofInt 1
            details := some "Meat with peanut sauce"
            needsClarification := false }
  ∧ getPersonalizedSuggestions
        { dailyCalorieGoal := some (JsNum.num (JQ.ofInt 2000))
          dietaryPreferences := some ["vegetarian"]
          allergies := some ["Peanut"]
          healthGoals := some ["weight_loss"] }
        { foodName := "Dish"
          calories := 600
          confidence := JQ.ofInt 1
          details := some "Meat with peanut sauce"
          needsClarification := false }
      = [remainingMsg (JQ.make 1400 1), meatMsg, allergyMsg "Peanut", portionMsg] :=
  ⟨C6_suggestions _ _ (by decide), by decide⟩
